import Mathlib

/-!
# Verification of the openMVG spherical-to-pinhole panorama converter

Shallow embedding of
`src/openMVG_Samples/image_spherical_to_pinholes/main_pano_converter.cpp`
and of the openMVG library interfaces it uses.  Machine floating-point
arithmetic is modelled over `ℝ`; the command-line/filesystem boundary is
modelled by explicit inputs (argument presence, decoded-file list,
output-directory availability) and an explicit record of observable effects
(error messages, written files, exit code).

Library functions whose sources live outside this repository snapshot
(`cubic_image_sampler.hpp`, `openMVG/numeric`, the image container, the
svg drawer, stlplus) are modelled from the specification; each such
definition carries a doc comment starting with `Modelled from the spec:`.
-/

namespace PanoConverter

/-- Modelled from the spec: openMVG `D2R`, degrees to radians. -/
noncomputable def D2R (d : ℝ) : ℝ := d * Real.pi / 180

/-- Modelled from the spec: `spherical::FocalFromPinholeHeight`
(`cubic_image_sampler.hpp`, not under `src/`): given an output square
resolution `h` and a field of view in radians, the focal length is
`(h / 2) / tan(fov_radians / 2)`. -/
noncomputable def FocalFromPinholeHeight (h : ℝ) (fov_radian : ℝ) : ℝ :=
  (h / 2) / Real.tan (fov_radian / 2)

/-- The pinhole intrinsic value `openMVG::cameras::Pinhole_Intrinsic`:
width, height, focal length and principal point. -/
structure Pinhole_Intrinsic where
  w : ℝ
  h : ℝ
  focal : ℝ
  ppx : ℝ
  ppy : ℝ

/-- Modelled from the spec: `spherical::ComputeCubicCameraIntrinsics`
(`cubic_image_sampler.hpp`, not under `src/`).  The call site in `main`
passes only `image_resolution`, so the camera is a function of the
resolution alone: a square cube-face camera (90° field of view) with
principal point at `(size/2, size/2)` per the spec's §4.2 contract. -/
noncomputable def ComputeCubicCameraIntrinsics (size : ℝ) : Pinhole_Intrinsic :=
  { w := size
    h := size
    focal := FocalFromPinholeHeight size (D2R 90)
    ppx := size / 2
    ppy := size / 2 }

/-- 3×3 real matrices, openMVG's `Mat3`. -/
abbrev Mat3 := Matrix (Fin 3) (Fin 3) ℝ

/-- Modelled from the spec: `openMVG::RotationAroundY` (openMVG numeric
library, not under `src/`): rotation of the given angle about the vertical
(Y) axis. -/
noncomputable def RotationAroundY (theta : ℝ) : Mat3 :=
  !![Real.cos theta, 0, Real.sin theta;
     0, 1, 0;
     -Real.sin theta, 0, Real.cos theta]

/-- `alpha = (M_PI * 2.0) / nb_split`, the angular spacing of the rig. -/
noncomputable def alpha (nb_split : ℕ) : ℝ := (Real.pi * 2) / nb_split

/-- The rig generation loop of `main`: for `i = 0 .. nb_split-1`, the
rotation `RotationAroundY (alpha * i)`. -/
noncomputable def camera_rotations (nb_split : ℕ) : List Mat3 :=
  (List.range nb_split).map (fun i : ℕ => RotationAroundY (alpha nb_split * (i : ℝ)))

theorem RotationAroundY_zero : RotationAroundY 0 = 1 := by
  ext i j
  fin_cases i <;> fin_cases j <;>
    simp [RotationAroundY, Matrix.one_apply, Matrix.vecHead, Matrix.vecTail]

theorem alpha_pos {n : ℕ} (hn : 1 ≤ n) : 0 < alpha n := by
  have hpos : (0 : ℝ) < n := by exact_mod_cast hn
  exact div_pos (by positivity) hpos

theorem focal_90_1024 : FocalFromPinholeHeight 1024 (D2R 90) = 512 := by
  unfold FocalFromPinholeHeight D2R
  have h : (90 : ℝ) * Real.pi / 180 / 2 = Real.pi / 4 := by ring
  rw [h, Real.tan_pi_div_four]
  norm_num

theorem focal_60_1024 : FocalFromPinholeHeight 1024 (D2R 60) = 512 * Real.sqrt 3 := by
  unfold FocalFromPinholeHeight D2R
  have h : (60 : ℝ) * Real.pi / 180 / 2 = Real.pi / 6 := by ring
  rw [h, Real.tan_eq_sin_div_cos, Real.sin_pi_div_six, Real.cos_pi_div_six]
  have h3 : Real.sqrt 3 ≠ 0 := by positivity
  field_simp
  ring

theorem one_lt_sqrt_three : (1 : ℝ) < Real.sqrt 3 := by
  have h : Real.sqrt 1 < Real.sqrt 3 := Real.sqrt_lt_sqrt (by norm_num) (by norm_num)
  simpa using h

theorem FocalFromPinholeHeight_pos (h fov : ℝ) (hh : 0 < h)
    (h0 : 0 < fov) (h180 : fov < 180) :
    0 < FocalFromPinholeHeight h (D2R fov) := by
  unfold FocalFromPinholeHeight D2R
  apply div_pos (by linarith)
  apply Real.tan_pos_of_pos_of_lt_pi_div_two
  · have := Real.pi_pos
    positivity
  · nlinarith [Real.pi_pos]

/-- C1: the claim asserts that the pinhole camera used for reprojection has
focal length `(h/2)/tan(fov_radians/2)` for every field of view in
(0°, 180°).  The code builds that camera with
`ComputeCubicCameraIntrinsics(image_resolution)`, a function of the
resolution alone, so its focal length is one fixed number and cannot track
the fov: at h = 1024 the claimed equality already fails on the pair
fov = 90° (formula value 512) and fov = 60° (formula value 512·√3). -/
theorem C1_reprojection_camera_focal_ignores_fov :
    ¬ (∀ fov : ℝ, 0 < fov → fov < 180 →
        (ComputeCubicCameraIntrinsics 1024).focal =
          FocalFromPinholeHeight 1024 (D2R fov)) := by
  intro hSay
  have h90 := hSay 90 (by norm_num) (by norm_num)
  have h60 := hSay 60 (by norm_num) (by norm_num)
  rw [focal_90_1024] at h90
  rw [focal_60_1024] at h60
  have heq : (512 : ℝ) = 512 * Real.sqrt 3 := h90 ▸ h60
  have h1 := one_lt_sqrt_three
  nlinarith [heq, h1]

/-- C2: for every `nb_split ≥ 1` the rig generation loop produces exactly
`nb_split` rotation matrices, the i-th being the rotation of angle
`2π·i/nb_split` about the vertical (Y) axis; the angles are strictly
increasing in i, and rotation 0 is the identity matrix. -/
theorem C2_rig_generator (n : ℕ) (hn : 1 ≤ n) :
    (camera_rotations n).length = n ∧
    (∀ i : ℕ, i < n →
      (camera_rotations n)[i]? =
        some (RotationAroundY (2 * Real.pi * (i : ℝ) / (n : ℝ)))) ∧
    (camera_rotations n)[0]? = some (1 : Mat3) ∧
    (∀ i j : ℕ, i < j → j < n → alpha n * (i : ℝ) < alpha n * (j : ℝ)) := by
  have hidx : ∀ i : ℕ, i < n →
      (camera_rotations n)[i]? =
        some (RotationAroundY (2 * Real.pi * (i : ℝ) / (n : ℝ))) := by
    intro i hi
    have hang : alpha n * (i : ℝ) = 2 * Real.pi * (i : ℝ) / (n : ℝ) := by
      rw [alpha]; ring
    rw [camera_rotations, List.getElem?_map, List.getElem?_range hi]
    simp only [Option.map_some']
    rw [hang]
  refine ⟨by rw [camera_rotations, List.length_map, List.length_range], hidx, ?_, ?_⟩
  · have h0 := hidx 0 (lt_of_lt_of_le Nat.zero_lt_one hn)
    have : 2 * Real.pi * ((0 : ℕ) : ℝ) / (n : ℝ) = 0 := by simp
    rw [this, RotationAroundY_zero] at h0
    exact h0
  · intro i j hij hj
    exact mul_lt_mul_of_pos_left (by exact_mod_cast hij) (alpha_pos hn)

/-- Witness for C2 at `nb_split = 4`. -/
theorem C2_rig_generator_witness :
    1 ≤ 4 ∧
    ((camera_rotations 4).length = 4 ∧
     (∀ i : ℕ, i < 4 →
       (camera_rotations 4)[i]? =
         some (RotationAroundY (2 * Real.pi * (i : ℝ) / ((4 : ℕ) : ℝ)))) ∧
     (camera_rotations 4)[0]? = some (1 : Mat3) ∧
     (∀ i j : ℕ, i < j → j < 4 → alpha 4 * (i : ℝ) < alpha 4 * (j : ℝ))) :=
  ⟨by norm_num, C2_rig_generator 4 (by norm_num)⟩

/-- RGB sample: openMVG `image::RGBColor` (8-bit channels modelled as ℕ). -/
structure RGBColor where
  r : ℕ
  g : ℕ
  b : ℕ
deriving DecidableEq

/-- Modelled from the spec: openMVG `image::BLACK`, the defined background
color the output images are initialized to. -/
def BLACK : RGBColor := ⟨0, 0, 0⟩

/-- Modelled from the spec: the openMVG image container, a 2D grid of RGB
samples. -/
structure Image where
  width : ℕ
  height : ℕ
  pix : ℕ → ℕ → RGBColor

/-- The spherical (equirectangular) camera
`openMVG::cameras::Intrinsic_Spherical`: panorama width and height. -/
structure Intrinsic_Spherical where
  w : ℕ
  h : ℕ

/-- Two-argument arctangent, as C `atan2(y, x)`. -/
noncomputable def atan2 (y x : ℝ) : ℝ :=
  if 0 < x then Real.arctan (y / x)
  else if x < 0 ∧ 0 ≤ y then Real.arctan (y / x) + Real.pi
  else if x < 0 then Real.arctan (y / x) - Real.pi
  else if 0 < y then Real.pi / 2
  else if y < 0 then -(Real.pi / 2)
  else 0

/-- Modelled from the spec: `Pinhole_Intrinsic::operator()`, the bearing
vector of a pixel: `((x - cx)/f, (y - cy)/f, 1)` normalized. -/
noncomputable def pinholeBearing (cam : Pinhole_Intrinsic) (p : ℝ × ℝ) : Fin 3 → ℝ :=
  let vx := (p.1 - cam.ppx) / cam.focal
  let vy := (p.2 - cam.ppy) / cam.focal
  let nrm := Real.sqrt (vx ^ 2 + vy ^ 2 + 1)
  ![vx / nrm, vy / nrm, 1 / nrm]

/-- Modelled from the spec: `Intrinsic_Spherical::project`: longitude
`λ = atan2(x, z)`, latitude `φ = asin(y)`, mapped linearly to pixels
`u = (λ/(2π) + 0.5)·W`, `v = (0.5 - φ/π)·H`. -/
noncomputable def sphericalProject (cam : Intrinsic_Spherical) (d : Fin 3 → ℝ) : ℝ × ℝ :=
  let lam := atan2 (d 0) (d 2)
  let phi := Real.arcsin (d 1)
  ((lam / (2 * Real.pi) + 1 / 2) * (cam.w : ℝ), (1 / 2 - phi / Real.pi) * (cam.h : ℝ))

/-- Primitives recorded by the svg drawer (modelled from the spec: the
drawer collects line and circle primitives into a document). -/
inductive SvgElement
  | line (x0 y0 x1 y1 : ℝ)
  | circle (cx cy radius : ℝ) (fill : String)

/-- Whether an svg element is a circle marker. -/
def SvgElement.isCircle : SvgElement → Bool
  | .circle _ _ _ _ => true
  | _ => false

/-- Whether an svg element is a line. -/
def SvgElement.isLine : SvgElement → Bool
  | .line _ _ _ _ => true
  | _ => false

/-- One projected border marker: the pinhole pixel `p` is unprojected to a
bearing, rotated by `R`, projected on the sphere, and drawn as a circle of
radius 4 with the given fill color. -/
noncomputable def borderMarker (sphere : Intrinsic_Spherical)
    (cam : Pinhole_Intrinsic) (R : Mat3) (p : ℝ × ℝ) (fill : String) : SvgElement :=
  let proj := sphericalProject sphere (Matrix.mulVec R (pinholeBearing cam p))
  SvgElement.circle proj.1 proj.2 4 fill

/-- The demo-mode border sweep `for (j = 0; j <= res; j += res/step)`,
modelled in exact real arithmetic: the samples are `k·(res/step)` for
`k = 0 .. step`, since for positive `res` one has `k·(res/step) ≤ res`
iff `k ≤ step`. -/
noncomputable def borderSamples (res : ℝ) (step : ℕ) : List ℝ :=
  (List.range (step + 1)).map (fun k : ℕ => (k : ℝ) * (res / (step : ℝ)))

/-- The circles drawn for one camera rotation in demo mode: the vertical
image borders (x = 0 and x = res) in green, then the horizontal image
borders (y = 0 and y = res) in yellow, each sampled with step 10. -/
noncomputable def demoCircles (sphere : Intrinsic_Spherical)
    (cam : Pinhole_Intrinsic) (res : ℝ) (R : Mat3) : List SvgElement :=
  ((borderSamples res 10).flatMap (fun j =>
    [borderMarker sphere cam R (0, j) "green",
     borderMarker sphere cam R (res, j) "green"])) ++
  ((borderSamples res 10).flatMap (fun j =>
    [borderMarker sphere cam R (j, 0) "yellow",
     borderMarker sphere cam R (j, res) "yellow"]))

/-- The demo-mode svg document: a 4096×2048 canvas with the two diagonal
reference lines, then the projected border circles of every camera. -/
noncomputable def demoSvg (res : ℝ) (rotations : List Mat3)
    (cam : Pinhole_Intrinsic) : List SvgElement :=
  let pano_width : ℕ := 4096
  let pano_height : ℕ := pano_width / 2
  let sphere_camera : Intrinsic_Spherical := ⟨pano_width, pano_height⟩
  [SvgElement.line 0 0 (pano_width : ℝ) (pano_height : ℝ),
   SvgElement.line (pano_width : ℝ) 0 0 (pano_height : ℝ)] ++
  rotations.flatMap (demoCircles sphere_camera cam res)

theorem countP_flatMap_const {α β : Type} (l : List α) (g : α → List β)
    (p : β → Bool) (c : ℕ) (h : ∀ a, (g a).countP p = c) :
    (l.flatMap g).countP p = c * l.length := by
  induction l with
  | nil => simp
  | cons x xs ih =>
      rw [List.flatMap_cons, List.countP_append, h x, ih]
      simp [Nat.mul_succ, Nat.add_comm]

theorem demoCircles_countP_isCircle (sphere : Intrinsic_Spherical)
    (cam : Pinhole_Intrinsic) (res : ℝ) (R : Mat3) :
    (demoCircles sphere cam res R).countP SvgElement.isCircle = 44 := by
  rw [demoCircles, List.countP_append]
  rw [countP_flatMap_const _ _ _ 2 (fun j => by simp [borderMarker, List.countP,
    List.countP.go, SvgElement.isCircle])]
  rw [countP_flatMap_const _ _ _ 2 (fun j => by simp [borderMarker, List.countP,
    List.countP.go, SvgElement.isCircle])]
  simp [borderSamples]

theorem demoCircles_countP_isLine (sphere : Intrinsic_Spherical)
    (cam : Pinhole_Intrinsic) (res : ℝ) (R : Mat3) :
    (demoCircles sphere cam res R).countP SvgElement.isLine = 0 := by
  rw [demoCircles, List.countP_append]
  rw [countP_flatMap_const _ _ _ 0 (fun j => by simp [borderMarker, List.countP,
    List.countP.go, SvgElement.isLine])]
  rw [countP_flatMap_const _ _ _ 0 (fun j => by simp [borderMarker, List.countP,
    List.countP.go, SvgElement.isLine])]
  simp

theorem demoSvg_counts (res : ℝ) (rotations : List Mat3) (cam : Pinhole_Intrinsic) :
    (demoSvg res rotations cam).countP SvgElement.isCircle = 44 * rotations.length ∧
    (demoSvg res rotations cam).countP SvgElement.isLine = 2 := by
  constructor
  · rw [demoSvg, List.countP_append,
      countP_flatMap_const _ _ _ 44 (fun R => demoCircles_countP_isCircle _ _ _ R)]
    simp [List.countP, List.countP.go, SvgElement.isCircle]
  · rw [demoSvg, List.countP_append,
      countP_flatMap_const _ _ _ 0 (fun R => demoCircles_countP_isLine _ _ _ R)]
    simp [List.countP, List.countP.go, SvgElement.isLine]

/-- C4 counterexample: with nb_split = 5 and step = 10 the demo document
contains 220 border circles, not 5·2·(step+1) = 110 as claimed — each of
the two border runs draws a circle on each of the two opposite borders per
sample, so a camera contributes 4·(step+1) circles, not 2·(step+1). -/
theorem C4_counterexample :
    (demoSvg 1024 (camera_rotations 5) (ComputeCubicCameraIntrinsics 1024)).countP
        SvgElement.isCircle ≠ 5 * 2 * (10 + 1) := by
  have h := (demoSvg_counts 1024 (camera_rotations 5)
    (ComputeCubicCameraIntrinsics 1024)).1
  rw [h]
  simp [camera_rotations]

/-- C4 (amended): in demo mode with nb_split = 5 and step = 10 the document
contains exactly 5·4·(step+1) = 220 projected border circles — per camera,
step+1 samples on each of the two vertical borders (green) and on each of
the two horizontal borders (yellow) — plus exactly the two fixed reference
diagonal lines. -/
theorem C4_demo_marker_count :
    (demoSvg 1024 (camera_rotations 5) (ComputeCubicCameraIntrinsics 1024)).countP
        SvgElement.isCircle = 5 * 4 * (10 + 1) ∧
    (demoSvg 1024 (camera_rotations 5) (ComputeCubicCameraIntrinsics 1024)).countP
        SvgElement.isLine = 2 := by
  have h := demoSvg_counts 1024 (camera_rotations 5) (ComputeCubicCameraIntrinsics 1024)
  refine ⟨?_, h.2⟩
  rw [h.1]
  simp [camera_rotations]

/-- The run configuration parsed from the command line, with the types of
`main`'s locals (`int` resolution and split count, floating fov). -/
structure Config where
  input_dir : String
  output_dir : String
  image_resolution : ℤ
  nb_split : ℤ
  fov : ℝ
  demo_mode : Bool

/-- The defaults of `main`: empty directories, resolution 1024, 5 splits,
fov 60°, demo mode off. -/
noncomputable def defaultConfig : Config :=
  { input_dir := "", output_dir := "", image_resolution := 1024,
    nb_split := 5, fov := 60, demo_mode := false }

/-- Observable effects of one run of `main`: whether the usage text was
printed, the error-stream messages, the image files written (path and
content), the svg document (demo mode), the value written to the focal
sidecar, how many times the resampler ran, and the exit code. -/
structure RunResult where
  usagePrinted : Bool
  errors : List String
  writtenImages : List (String × Image)
  svg : Option (List SvgElement)
  focalSidecar : Option ℝ
  resampleCalls : ℕ
  exitCode : ℕ

/-- Modelled from the spec: bilinear sampling of the panorama at real
coordinates — the four neighbouring samples averaged with the fractional
weights, channels rounded back to integer values. -/
noncomputable def bilinearSample (img : Image) (u v : ℝ) : RGBColor :=
  let x0 : ℕ := ⌊u⌋.toNat
  let y0 : ℕ := ⌊v⌋.toNat
  let fx : ℝ := u - ⌊u⌋
  let fy : ℝ := v - ⌊v⌋
  let c00 := img.pix x0 y0
  let c10 := img.pix (x0 + 1) y0
  let c01 := img.pix x0 (y0 + 1)
  let c11 := img.pix (x0 + 1) (y0 + 1)
  let mix : ℕ → ℕ → ℕ → ℕ → ℕ := fun a b c d =>
    (⌊(1 - fx) * (1 - fy) * a + fx * (1 - fy) * b
        + (1 - fx) * fy * c + fx * fy * d⌋).toNat
  ⟨mix c00.r c10.r c01.r c11.r, mix c00.g c10.g c01.g c11.g,
   mix c00.b c10.b c01.b c11.b⟩

/-- Modelled from the spec: one destination pixel of the forward resampler —
unproject the pinhole pixel, rotate, project onto the panorama, and when
the projection lands inside the panorama (u wrapped modulo W, v inside
[0, H)) bilinearly sample it; otherwise keep the background value. -/
noncomputable def resampledPixel (src : Image) (cam : Pinhole_Intrinsic)
    (R : Mat3) (x y : ℕ) (background : RGBColor) : RGBColor :=
  let uv := sphericalProject ⟨src.width, src.height⟩
    (Matrix.mulVec R (pinholeBearing cam ((x : ℝ), (y : ℝ))))
  let W : ℝ := (src.width : ℝ)
  let u := uv.1 - W * (⌊uv.1 / W⌋ : ℝ)
  if 0 ≤ uv.2 ∧ uv.2 < (src.height : ℝ) then bilinearSample src u uv.2
  else background

/-- Modelled from the spec: `spherical::SphericalToPinholes`
(`cubic_image_sampler.hpp`, not under `src/`): fills each destination
image — one per rotation — by per-pixel reprojection and bilinear sampling
of the source panorama; pixels whose reprojection misses the panorama
keep their initialized value. -/
noncomputable def SphericalToPinholes (src : Image) (cam : Pinhole_Intrinsic)
    (sampled_images : List Image) (rotations : List Mat3) : List Image :=
  (sampled_images.zip rotations).map (fun p =>
    { width := p.1.width
      height := p.1.height
      pix := fun x y =>
        if x < p.1.width ∧ y < p.1.height then
          resampledPixel src cam p.2 x y (p.1.pix x y)
        else p.1.pix x y })

/-- Modelled from the spec: `stlplus::basename_part` strips directory and
extension; the discovered inputs are flat `*.jpg` names, so the basename
drops the trailing ".jpg". -/
def basename_part (s : String) : String := s.dropRight 4

/-- The output path `out_dir/basename_i.jpg` assembled by the save loop. -/
def outputName (out_dir basename : String) (i : ℕ) : String :=
  out_dir ++ "/" ++ basename ++ "_" ++ toString i ++ ".jpg"

/-- The freshly allocated destination canvas:
`image_resolution × image_resolution`, every pixel the background BLACK. -/
def blackImage (res : ℕ) : Image := ⟨res, res, fun _ _ => BLACK⟩

/-- One iteration of the conversion loop: on decode failure, an error
message and no outputs; on success, one output per rotation, resampled
into BLACK-initialized canvases and named `basename_i.jpg`. -/
noncomputable def processImage (out_dir : String) (res : ℕ)
    (cam : Pinhole_Intrinsic) (rotations : List Mat3) (in_dir : String)
    (filename : String) (decoded : Option Image) :
    List (String × Image) × List String :=
  match decoded with
  | none => ([], ["Cannot read the image: " ++ in_dir ++ "/" ++ filename])
  | some spherical_image =>
      let sampled_images := List.replicate rotations.length (blackImage res)
      let filled := SphericalToPinholes spherical_image cam sampled_images rotations
      ((List.range rotations.length).map (fun i =>
          (outputName out_dir (basename_part filename) i,
           filled.getD i (blackImage res))), [])

/-- The whole `main`, as a function from its abstract inputs — whether the
command line is empty, the parsed configuration, the discovered `*.jpg`
files with their decode results, and whether the output directory exists
or can be created — to the observable effects of the run. -/
noncomputable def runMain (noArgs : Bool) (cfgIn : Config)
    (files : List (String × Option Image)) (outDirOk : Bool) : RunResult :=
  let cfg := if noArgs then defaultConfig else cfgIn
  let usage := noArgs
  if cfg.image_resolution < 0 then
    ⟨usage, ["image_resolution must be larger than 0"], [], none, none, 0, 1⟩
  else if cfg.nb_split < 0 then
    ⟨usage, ["nb_split must be larger than 0"], [], none, none, 0, 1⟩
  else if cfg.input_dir = "" ∨ cfg.output_dir = "" then
    ⟨usage, ["input_dir and output_dir option must not be empty"], [], none, none, 0, 1⟩
  else if outDirOk = false then
    ⟨usage, ["Cannot create the output_dir directory"], [], none, none, 0, 1⟩
  else if files.isEmpty then
    ⟨usage, ["Did not find any jpg image in the provided input_dir"], [], none, none, 0, 1⟩
  else
    let pinhole_camera := ComputeCubicCameraIntrinsics ((cfg.image_resolution : ℤ) : ℝ)
    let focal := FocalFromPinholeHeight ((cfg.image_resolution : ℤ) : ℝ) (D2R cfg.fov)
    let rotations := camera_rotations cfg.nb_split.toNat
    if cfg.demo_mode then
      ⟨usage, [], [],
       some (demoSvg ((cfg.image_resolution : ℤ) : ℝ) rotations pinhole_camera),
       none, 0, 0⟩
    else
      let results := files.map (fun f =>
        processImage cfg.output_dir cfg.image_resolution.toNat pinhole_camera
          rotations cfg.input_dir f.1 f.2)
      ⟨usage, results.flatMap Prod.snd, results.flatMap Prod.fst, none,
       some focal, files.countP (fun f => f.2.isSome), 0⟩

theorem runMain_conversion_eq (cfg : Config) (files : List (String × Option Image))
    (hres : 0 ≤ cfg.image_resolution) (hn : 0 ≤ cfg.nb_split)
    (hin : cfg.input_dir ≠ "") (hout : cfg.output_dir ≠ "")
    (hfiles : files ≠ []) (hdemo : cfg.demo_mode = false) :
    runMain false cfg files true =
      ⟨false,
       (files.map (fun f =>
         processImage cfg.output_dir cfg.image_resolution.toNat
           (ComputeCubicCameraIntrinsics ((cfg.image_resolution : ℤ) : ℝ))
           (camera_rotations cfg.nb_split.toNat) cfg.input_dir f.1 f.2)).flatMap
         Prod.snd,
       (files.map (fun f =>
         processImage cfg.output_dir cfg.image_resolution.toNat
           (ComputeCubicCameraIntrinsics ((cfg.image_resolution : ℤ) : ℝ))
           (camera_rotations cfg.nb_split.toNat) cfg.input_dir f.1 f.2)).flatMap
         Prod.fst,
       none,
       some (FocalFromPinholeHeight ((cfg.image_resolution : ℤ) : ℝ) (D2R cfg.fov)),
       files.countP (fun f => f.2.isSome), 0⟩ := by
  simp only [runMain, Bool.false_eq_true, if_false]
  rw [if_neg (not_lt.2 hres), if_neg (not_lt.2 hn),
    if_neg (not_or.mpr ⟨hin, hout⟩),
    if_neg (by simp),
    if_neg (by simp only [List.isEmpty_iff]; exact hfiles),
    if_neg (by simp [hdemo])]

theorem runMain_demo_eq (cfg : Config) (files : List (String × Option Image))
    (hres : 0 ≤ cfg.image_resolution) (hn : 0 ≤ cfg.nb_split)
    (hin : cfg.input_dir ≠ "") (hout : cfg.output_dir ≠ "")
    (hfiles : files ≠ []) (hdemo : cfg.demo_mode = true) :
    runMain false cfg files true =
      ⟨false, [], [],
       some (demoSvg ((cfg.image_resolution : ℤ) : ℝ)
         (camera_rotations cfg.nb_split.toNat)
         (ComputeCubicCameraIntrinsics ((cfg.image_resolution : ℤ) : ℝ))),
       none, 0, 0⟩ := by
  simp only [runMain, Bool.false_eq_true, if_false]
  rw [if_neg (not_lt.2 hres), if_neg (not_lt.2 hn),
    if_neg (not_or.mpr ⟨hin, hout⟩),
    if_neg (by simp),
    if_neg (by simp only [List.isEmpty_iff]; exact hfiles),
    if_pos hdemo]

/-- A 2:1 test panorama, all black. -/
def testPanorama : Image := ⟨2048, 1024, fun _ _ => BLACK⟩

/-- A concrete conversion-mode configuration used to witness the run. -/
noncomputable def sampleConfig : Config :=
  { input_dir := "in", output_dir := "out", image_resolution := 1024,
    nb_split := 5, fov := 60, demo_mode := false }

/-- C3: the claim says any run with image_resolution ≤ 0 or nb_split ≤ 0 is
rejected with a failure exit before processing.  The code checks `< 0`,
not `≤ 0` — against its own messages "must be larger than 0" — so a run
with image_resolution = 0 and nb_split = 0 passes validation, enters the
conversion loop, and even exits with success. -/
theorem C3_zero_values_not_rejected :
    (runMain false ⟨"in", "out", 0, 0, 60, false⟩ [("a.jpg", none)] true).exitCode
        = 0 ∧
    (runMain false ⟨"in", "out", 0, 0, 60, false⟩ [("a.jpg", none)] true).errors
        = ["Cannot read the image: in/a.jpg"] := by
  constructor <;> rfl

theorem mem_SphericalToPinholes_dims (src : Image) (cam : Pinhole_Intrinsic)
    (res n : ℕ) (rots : List Mat3) (im : Image)
    (him : im ∈ SphericalToPinholes src cam (List.replicate n (blackImage res)) rots) :
    im.width = res ∧ im.height = res := by
  rcases List.mem_map.1 him with ⟨p, hp, rfl⟩
  have h1 := (List.of_mem_zip hp).1
  have h2 := List.eq_of_mem_replicate h1
  constructor <;> simp [h2, blackImage]

/-- C5: in conversion mode a decode failure of one source image is reported
on the error stream and that image is skipped; the valid panorama still
yields its nb_split outputs and the run exits with success. -/
theorem C5_decode_failure_skip (cfg : Config) (good bad : String) (img : Image)
    (hres : 0 ≤ cfg.image_resolution) (hn : 0 ≤ cfg.nb_split)
    (hin : cfg.input_dir ≠ "") (hout : cfg.output_dir ≠ "")
    (hdemo : cfg.demo_mode = false) :
    (runMain false cfg [(good, some img), (bad, none)] true).exitCode = 0 ∧
    (runMain false cfg [(good, some img), (bad, none)] true).errors =
      ["Cannot read the image: " ++ cfg.input_dir ++ "/" ++ bad] ∧
    (runMain false cfg [(good, some img), (bad, none)] true).writtenImages.length =
      cfg.nb_split.toNat ∧
    (runMain false cfg [(good, some img), (bad, none)] true).writtenImages.map
        Prod.fst =
      (List.range cfg.nb_split.toNat).map
        (outputName cfg.output_dir (basename_part good)) := by
  rw [runMain_conversion_eq cfg _ hres hn hin hout (by simp) hdemo]
  refine ⟨rfl, by simp [processImage], ?_, ?_⟩
  · simp [processImage, camera_rotations]
  · simp [processImage, camera_rotations, List.map_map, Function.comp_def]

/-- Witness for C5 on a concrete run. -/
theorem C5_decode_failure_skip_witness :
    (runMain false sampleConfig
        [("pano.jpg", some testPanorama), ("bad.jpg", none)] true).exitCode = 0 ∧
    (runMain false sampleConfig
        [("pano.jpg", some testPanorama), ("bad.jpg", none)] true).errors =
      ["Cannot read the image: " ++ sampleConfig.input_dir ++ "/" ++ "bad.jpg"] ∧
    (runMain false sampleConfig
        [("pano.jpg", some testPanorama), ("bad.jpg", none)] true).writtenImages.length =
      sampleConfig.nb_split.toNat ∧
    (runMain false sampleConfig
        [("pano.jpg", some testPanorama), ("bad.jpg", none)] true).writtenImages.map
        Prod.fst =
      (List.range sampleConfig.nb_split.toNat).map
        (outputName sampleConfig.output_dir (basename_part "pano.jpg")) :=
  C5_decode_failure_skip sampleConfig "pano.jpg" "bad.jpg" testPanorama
    (by norm_num [sampleConfig]) (by norm_num [sampleConfig])
    (by simp [sampleConfig]) (by simp [sampleConfig]) rfl

/-- C6: for every successfully decoded source image the conversion loop
writes exactly one output per camera index named `basename_i.jpg` for
i = 0..nb_split-1, each produced by resampling into a freshly allocated
`image_resolution × image_resolution` canvas whose every pixel starts as
the background BLACK; and the conversion run writes the focal-length
sidecar with the computed focal value. -/
theorem C6_conversion_outputs (cfg : Config) (files : List (String × Option Image))
    (hres : 0 ≤ cfg.image_resolution) (hn : 0 ≤ cfg.nb_split)
    (hin : cfg.input_dir ≠ "") (hout : cfg.output_dir ≠ "")
    (hfiles : files ≠ []) (hdemo : cfg.demo_mode = false)
    (name : String) (img : Image) :
    ((processImage cfg.output_dir cfg.image_resolution.toNat
        (ComputeCubicCameraIntrinsics ((cfg.image_resolution : ℤ) : ℝ))
        (camera_rotations cfg.nb_split.toNat) cfg.input_dir name (some img)).1.map
          Prod.fst =
      (List.range cfg.nb_split.toNat).map
        (outputName cfg.output_dir (basename_part name))) ∧
    ((processImage cfg.output_dir cfg.image_resolution.toNat
        (ComputeCubicCameraIntrinsics ((cfg.image_resolution : ℤ) : ℝ))
        (camera_rotations cfg.nb_split.toNat) cfg.input_dir name (some img)).1.length =
      cfg.nb_split.toNat) ∧
    (∀ pr ∈ (processImage cfg.output_dir cfg.image_resolution.toNat
        (ComputeCubicCameraIntrinsics ((cfg.image_resolution : ℤ) : ℝ))
        (camera_rotations cfg.nb_split.toNat) cfg.input_dir name (some img)).1,
      pr.2.width = cfg.image_resolution.toNat ∧
      pr.2.height = cfg.image_resolution.toNat) ∧
    (∀ x y : ℕ, (blackImage cfg.image_resolution.toNat).pix x y = BLACK) ∧
    ((runMain false cfg files true).focalSidecar =
      some (FocalFromPinholeHeight ((cfg.image_resolution : ℤ) : ℝ) (D2R cfg.fov))) := by
  refine ⟨?_, ?_, ?_, fun x y => rfl, ?_⟩
  · simp [processImage, camera_rotations, List.map_map, Function.comp_def]
  · simp [processImage, camera_rotations]
  · intro pr hpr
    simp only [processImage] at hpr
    rcases List.mem_map.1 hpr with ⟨i, hi, rfl⟩
    dsimp only
    by_cases hlt : i < (SphericalToPinholes img
        (ComputeCubicCameraIntrinsics ((cfg.image_resolution : ℤ) : ℝ))
        (List.replicate (camera_rotations cfg.nb_split.toNat).length
          (blackImage cfg.image_resolution.toNat))
        (camera_rotations cfg.nb_split.toNat)).length
    · rw [List.getD_eq_getElem _ _ hlt]
      exact mem_SphericalToPinholes_dims _ _ _ _ _ _ (List.getElem_mem hlt)
    · have hd : (SphericalToPinholes img
          (ComputeCubicCameraIntrinsics ((cfg.image_resolution : ℤ) : ℝ))
          (List.replicate (camera_rotations cfg.nb_split.toNat).length
            (blackImage cfg.image_resolution.toNat))
          (camera_rotations cfg.nb_split.toNat)).getD i
            (blackImage cfg.image_resolution.toNat) =
          blackImage cfg.image_resolution.toNat := by
        rw [List.getD_eq_default]
        omega
      rw [hd]
      exact ⟨rfl, rfl⟩
  · rw [runMain_conversion_eq cfg files hres hn hin hout hfiles hdemo]

/-- Witness for C6 on a concrete run. -/
theorem C6_conversion_outputs_witness :
    ((processImage sampleConfig.output_dir sampleConfig.image_resolution.toNat
        (ComputeCubicCameraIntrinsics ((sampleConfig.image_resolution : ℤ) : ℝ))
        (camera_rotations sampleConfig.nb_split.toNat) sampleConfig.input_dir
        "pano.jpg" (some testPanorama)).1.map Prod.fst =
      (List.range sampleConfig.nb_split.toNat).map
        (outputName sampleConfig.output_dir (basename_part "pano.jpg"))) ∧
    ((processImage sampleConfig.output_dir sampleConfig.image_resolution.toNat
        (ComputeCubicCameraIntrinsics ((sampleConfig.image_resolution : ℤ) : ℝ))
        (camera_rotations sampleConfig.nb_split.toNat) sampleConfig.input_dir
        "pano.jpg" (some testPanorama)).1.length = sampleConfig.nb_split.toNat) ∧
    (∀ pr ∈ (processImage sampleConfig.output_dir sampleConfig.image_resolution.toNat
        (ComputeCubicCameraIntrinsics ((sampleConfig.image_resolution : ℤ) : ℝ))
        (camera_rotations sampleConfig.nb_split.toNat) sampleConfig.input_dir
        "pano.jpg" (some testPanorama)).1,
      pr.2.width = sampleConfig.image_resolution.toNat ∧
      pr.2.height = sampleConfig.image_resolution.toNat) ∧
    (∀ x y : ℕ, (blackImage sampleConfig.image_resolution.toNat).pix x y = BLACK) ∧
    ((runMain false sampleConfig [("pano.jpg", some testPanorama)] true).focalSidecar =
      some (FocalFromPinholeHeight ((sampleConfig.image_resolution : ℤ) : ℝ)
        (D2R sampleConfig.fov))) :=
  C6_conversion_outputs sampleConfig [("pano.jpg", some testPanorama)]
    (by norm_num [sampleConfig]) (by norm_num [sampleConfig])
    (by simp [sampleConfig]) (by simp [sampleConfig]) (by simp) rfl
    "pano.jpg" testPanorama

/-- C7: the run executes exactly one of two mutually exclusive modes chosen
once from the demo switch: with the switch, the diagnostic svg is emitted
and the run terminates with success, performing no resampling and
producing no output image and no focal sidecar; without the switch, the
conversion pipeline runs (focal sidecar written, no svg emitted). -/
theorem C7_mode_exclusive (cfg : Config) (files : List (String × Option Image))
    (hres : 0 ≤ cfg.image_resolution) (hn : 0 ≤ cfg.nb_split)
    (hin : cfg.input_dir ≠ "") (hout : cfg.output_dir ≠ "")
    (hfiles : files ≠ []) :
    (cfg.demo_mode = true →
      (runMain false cfg files true).svg =
        some (demoSvg ((cfg.image_resolution : ℤ) : ℝ)
          (camera_rotations cfg.nb_split.toNat)
          (ComputeCubicCameraIntrinsics ((cfg.image_resolution : ℤ) : ℝ))) ∧
      (runMain false cfg files true).writtenImages = [] ∧
      (runMain false cfg files true).focalSidecar = none ∧
      (runMain false cfg files true).resampleCalls = 0 ∧
      (runMain false cfg files true).exitCode = 0) ∧
    (cfg.demo_mode = false →
      (runMain false cfg files true).svg = none ∧
      (runMain false cfg files true).focalSidecar =
        some (FocalFromPinholeHeight ((cfg.image_resolution : ℤ) : ℝ) (D2R cfg.fov)) ∧
      (runMain false cfg files true).exitCode = 0) := by
  constructor
  · intro hdemo
    rw [runMain_demo_eq cfg files hres hn hin hout hfiles hdemo]
    exact ⟨rfl, rfl, rfl, rfl, rfl⟩
  · intro hdemo
    rw [runMain_conversion_eq cfg files hres hn hin hout hfiles hdemo]
    exact ⟨rfl, rfl, rfl⟩

/-- Witness for C7 on a concrete run. -/
theorem C7_mode_exclusive_witness :
    (sampleConfig.demo_mode = true →
      (runMain false sampleConfig [("pano.jpg", some testPanorama)] true).svg =
        some (demoSvg ((sampleConfig.image_resolution : ℤ) : ℝ)
          (camera_rotations sampleConfig.nb_split.toNat)
          (ComputeCubicCameraIntrinsics ((sampleConfig.image_resolution : ℤ) : ℝ))) ∧
      (runMain false sampleConfig [("pano.jpg", some testPanorama)] true).writtenImages
          = [] ∧
      (runMain false sampleConfig [("pano.jpg", some testPanorama)] true).focalSidecar
          = none ∧
      (runMain false sampleConfig [("pano.jpg", some testPanorama)] true).resampleCalls
          = 0 ∧
      (runMain false sampleConfig [("pano.jpg", some testPanorama)] true).exitCode
          = 0) ∧
    (sampleConfig.demo_mode = false →
      (runMain false sampleConfig [("pano.jpg", some testPanorama)] true).svg = none ∧
      (runMain false sampleConfig [("pano.jpg", some testPanorama)] true).focalSidecar
          = some (FocalFromPinholeHeight ((sampleConfig.image_resolution : ℤ) : ℝ)
              (D2R sampleConfig.fov)) ∧
      (runMain false sampleConfig [("pano.jpg", some testPanorama)] true).exitCode
          = 0) :=
  C7_mode_exclusive sampleConfig [("pano.jpg", some testPanorama)]
    (by norm_num [sampleConfig]) (by norm_num [sampleConfig])
    (by simp [sampleConfig]) (by simp [sampleConfig]) (by simp)

/-- C8: two conversion-mode runs that differ only in the fov parameter
produce identical output images, identical error messages and the same
exit code; the fov influences only the focal value recorded in the
sidecar, because the pinhole camera used for resampling is constructed
solely from the image resolution. -/
theorem C8_fov_only_affects_sidecar (cfg : Config) (f1 f2 : ℝ)
    (files : List (String × Option Image))
    (hres : 0 ≤ cfg.image_resolution) (hn : 0 ≤ cfg.nb_split)
    (hin : cfg.input_dir ≠ "") (hout : cfg.output_dir ≠ "")
    (hfiles : files ≠ []) (hdemo : cfg.demo_mode = false) :
    (runMain false { cfg with fov := f1 } files true).writtenImages =
      (runMain false { cfg with fov := f2 } files true).writtenImages ∧
    (runMain false { cfg with fov := f1 } files true).errors =
      (runMain false { cfg with fov := f2 } files true).errors ∧
    (runMain false { cfg with fov := f1 } files true).exitCode =
      (runMain false { cfg with fov := f2 } files true).exitCode ∧
    (runMain false { cfg with fov := f1 } files true).focalSidecar =
      some (FocalFromPinholeHeight ((cfg.image_resolution : ℤ) : ℝ) (D2R f1)) ∧
    (runMain false { cfg with fov := f2 } files true).focalSidecar =
      some (FocalFromPinholeHeight ((cfg.image_resolution : ℤ) : ℝ) (D2R f2)) := by
  rw [runMain_conversion_eq { cfg with fov := f1 } files hres hn hin hout hfiles hdemo,
    runMain_conversion_eq { cfg with fov := f2 } files hres hn hin hout hfiles hdemo]
  exact ⟨rfl, rfl, rfl, rfl, rfl⟩

/-- Witness for C8 on a concrete pair of runs (fov 90° versus 30°). -/
theorem C8_fov_only_affects_sidecar_witness :
    (runMain false { sampleConfig with fov := 90 }
        [("pano.jpg", some testPanorama)] true).writtenImages =
      (runMain false { sampleConfig with fov := 30 }
        [("pano.jpg", some testPanorama)] true).writtenImages ∧
    (runMain false { sampleConfig with fov := 90 }
        [("pano.jpg", some testPanorama)] true).errors =
      (runMain false { sampleConfig with fov := 30 }
        [("pano.jpg", some testPanorama)] true).errors ∧
    (runMain false { sampleConfig with fov := 90 }
        [("pano.jpg", some testPanorama)] true).exitCode =
      (runMain false { sampleConfig with fov := 30 }
        [("pano.jpg", some testPanorama)] true).exitCode ∧
    (runMain false { sampleConfig with fov := 90 }
        [("pano.jpg", some testPanorama)] true).focalSidecar =
      some (FocalFromPinholeHeight ((sampleConfig.image_resolution : ℤ) : ℝ)
        (D2R 90)) ∧
    (runMain false { sampleConfig with fov := 30 }
        [("pano.jpg", some testPanorama)] true).focalSidecar =
      some (FocalFromPinholeHeight ((sampleConfig.image_resolution : ℤ) : ℝ)
        (D2R 30)) :=
  C8_fov_only_affects_sidecar sampleConfig 90 30 [("pano.jpg", some testPanorama)]
    (by norm_num [sampleConfig]) (by norm_num [sampleConfig])
    (by simp [sampleConfig]) (by simp [sampleConfig]) (by simp) rfl

/-- C9: when every discovered source image fails to decode, conversion mode
still terminates with the success exit code and still writes the focal
sidecar, while producing no output images. -/
theorem C9_all_decodes_fail (cfg : Config) (files : List (String × Option Image))
    (hres : 0 ≤ cfg.image_resolution) (hn : 0 ≤ cfg.nb_split)
    (hin : cfg.input_dir ≠ "") (hout : cfg.output_dir ≠ "")
    (hfiles : files ≠ []) (hdemo : cfg.demo_mode = false)
    (hall : ∀ f ∈ files, f.2 = none) :
    (runMain false cfg files true).exitCode = 0 ∧
    (runMain false cfg files true).writtenImages = [] ∧
    (runMain false cfg files true).focalSidecar =
      some (FocalFromPinholeHeight ((cfg.image_resolution : ℤ) : ℝ) (D2R cfg.fov)) := by
  rw [runMain_conversion_eq cfg files hres hn hin hout hfiles hdemo]
  refine ⟨rfl, ?_, rfl⟩
  rw [List.flatMap_eq_nil_iff]
  intro x hx
  rcases List.mem_map.1 hx with ⟨f, hf, rfl⟩
  rw [hall f hf]
  rfl

/-- Witness for C9 on a concrete run with a single undecodable file. -/
theorem C9_all_decodes_fail_witness :
    (runMain false sampleConfig [("bad.jpg", none)] true).exitCode = 0 ∧
    (runMain false sampleConfig [("bad.jpg", none)] true).writtenImages = [] ∧
    (runMain false sampleConfig [("bad.jpg", none)] true).focalSidecar =
      some (FocalFromPinholeHeight ((sampleConfig.image_resolution : ℤ) : ℝ)
        (D2R sampleConfig.fov)) :=
  C9_all_decodes_fail sampleConfig [("bad.jpg", none)]
    (by norm_num [sampleConfig]) (by norm_num [sampleConfig])
    (by simp [sampleConfig]) (by simp [sampleConfig]) (by simp) rfl
    (by intro f hf; rcases List.mem_singleton.1 hf with rfl; rfl)

/-- C10: invoked with no command-line arguments, the usage text is printed
to the error stream but the run does not terminate there; the defaults
(resolution 1024, split 5) pass the numeric checks and the run then fails
at the emptiness validation of the default (empty) directories, with a
failure exit and no output. -/
theorem C10_no_arguments (cfg : Config) (files : List (String × Option Image))
    (ok : Bool) :
    (runMain true cfg files ok).usagePrinted = true ∧
    (runMain true cfg files ok).errors =
      ["input_dir and output_dir option must not be empty"] ∧
    (runMain true cfg files ok).exitCode = 1 ∧
    (runMain true cfg files ok).writtenImages = [] ∧
    (runMain true cfg files ok).focalSidecar = none :=
  ⟨rfl, rfl, rfl, rfl, rfl⟩

end PanoConverter
